import Mathlib

/-!
Movie-React-App: the fetch orchestration of `src/App.jsx`

A shallow embedding of the `App` component: its `useState` cells, the setter
calls and external calls made by `fetchMovies`, `fetchMovieDetails`,
`loadTrendingMovies` and the handlers, the two `useEffect`s that drive the
catalog requests, and the conditional rendering of the "All Movies" section.

Every `async` function is cut at its `await`s into synchronous segments; a
segment is the list of calls it makes, in source order.
-/

namespace MovieApp

/-! ## Data model -/

/-- One entry of `data.results` (the fields the components read). -/
structure Movie where
  id : Nat
  title : String
  poster_path : Option String
  deriving DecidableEq, Repr

/-- One document of the trending store as rendered by `App`. -/
structure TrendingEntry where
  searchTerm : String
  poster_url : String
  deriving DecidableEq, Repr

/-- The ten `useState` cells of `App` (App.jsx lines 22-37). `currentPage` and
`totalPages` are JavaScript numbers holding integers. -/
structure AppState where
  debouncedSearchTerm : String
  searchTerm : String
  movieList : List Movie
  errorMessage : String
  isLoading : Bool
  trendingMovies : List TrendingEntry
  currentPage : Nat
  totalPages : Int
  selectedMovie : Option Movie
  showDetails : Bool
  deriving DecidableEq, Repr

/-- The initial values handed to `useState`. -/
def AppState.initial : AppState :=
  { debouncedSearchTerm := ""
    searchTerm := ""
    movieList := []
    errorMessage := ""
    isLoading := false
    trendingMovies := []
    currentPage := 1
    totalPages := 0
    selectedMovie := none
    showDetails := false }

/-- The second argument of `fetch`: `API_OPTIONS` (App.jsx lines 13-19). -/
structure RequestOptions where
  method : String
  accept : String
  authorization : String
  deriving DecidableEq, Repr

/-- Every call `App` makes that is visible outside the function making it: the
state setters, the network and store calls, the console and the window. -/
inductive Action where
  | setDebouncedSearchTerm (v : String)
  | setSearchTerm (v : String)
  | setMovieList (v : List Movie)
  | setErrorMessage (v : String)
  | setIsLoading (v : Bool)
  | setTrendingMovies (v : List TrendingEntry)
  | setCurrentPage (v : Nat)
  | setTotalPages (v : Int)
  | setSelectedMovie (v : Option Movie)
  | setShowDetails (v : Bool)
  | fetch (url : String) (options : RequestOptions)
  | updateSearchCount (searchTerm : String) (movie : Movie)
  | getTrendingMovies
  | consoleError (label : String)
  | consoleLog (label : String)
  | scrollTo (top : Nat)
  deriving DecidableEq, Repr

/-- A setter call replaces its cell; the other calls leave the cells alone. -/
def applyAction (s : AppState) : Action → AppState
  | .setDebouncedSearchTerm v => { s with debouncedSearchTerm := v }
  | .setSearchTerm v => { s with searchTerm := v }
  | .setMovieList v => { s with movieList := v }
  | .setErrorMessage v => { s with errorMessage := v }
  | .setIsLoading v => { s with isLoading := v }
  | .setTrendingMovies v => { s with trendingMovies := v }
  | .setCurrentPage v => { s with currentPage := v }
  | .setTotalPages v => { s with totalPages := v }
  | .setSelectedMovie v => { s with selectedMovie := v }
  | .setShowDetails v => { s with showDetails := v }
  | .fetch _ _ => s
  | .updateSearchCount _ _ => s
  | .getTrendingMovies => s
  | .consoleError _ => s
  | .consoleLog _ => s
  | .scrollTo _ => s

/-- The calls of one synchronous segment take effect in the order made. -/
def applyActions (s : AppState) (as : List Action) : AppState :=
  as.foldl applyAction s

/-! ## Module constants -/

/-- JavaScript truthiness of a string: every string but the empty one. -/
def truthy (s : String) : Bool := s != ""

/-- Truthiness of `import.meta.env.VITE_TMDB_API_KEY`: `none` is `undefined`. -/
def keyPresent : Option String → Bool
  | none => false
  | some k => truthy k

def API_BASE_URL : String := "https://api.themoviedb.org/3"

/-- The template literal of line 17 prints an absent key as `undefined`. -/
def API_OPTIONS (API_KEY : Option String) : RequestOptions :=
  { method := "GET"
    accept := "application/json"
    authorization := "Bearer " ++ API_KEY.getD "undefined" }

/-! ## `encodeURIComponent` -/

/-- The characters `encodeURIComponent` copies unchanged: ASCII letters and
digits and `- _ . ! ~ * ' ( )`. -/
def uriUnreserved (c : Char) : Bool :=
  let n := c.toNat
  (65 ≤ n && n ≤ 90) || (97 ≤ n && n ≤ 122) || (48 ≤ n && n ≤ 57) ||
    n == 45 || n == 95 || n == 46 || n == 33 || n == 126 || n == 42 ||
    n == 39 || n == 40 || n == 41

/-- The UTF-8 octets of a code point. -/
def utf8Bytes (n : Nat) : List Nat :=
  if n < 0x80 then [n]
  else if n < 0x800 then [0xC0 + n / 64, 0x80 + n % 64]
  else if n < 0x10000 then [0xE0 + n / 4096, 0x80 + n / 64 % 64, 0x80 + n % 64]
  else [0xF0 + n / 262144, 0x80 + n / 4096 % 64, 0x80 + n / 64 % 64, 0x80 + n % 64]

/-- An upper-case hexadecimal digit. -/
def hexDigit (n : Nat) : Char :=
  if n < 10 then Char.ofNat (48 + n) else Char.ofNat (55 + n)

/-- The escape `%XX` of one octet. -/
def percentByte (b : Nat) : List Char :=
  ['%', hexDigit (b / 16), hexDigit (b % 16)]

/-- What `encodeURIComponent` writes for one code point. -/
def encodeChar (c : Char) : List Char :=
  if uriUnreserved c then [c] else (utf8Bytes c.toNat).flatMap percentByte

/-- The built-in `encodeURIComponent` on a well-formed string (a Lean `String`
holds Unicode scalar values, so the lone surrogates on which the built-in
throws do not occur). -/
def encodeURIComponent (s : String) : String :=
  String.mk (s.data.flatMap encodeChar)

/-! ## `fetchMovies` (App.jsx lines 42-83) -/

/-- The `url` of lines 54-56. `page` is an integer-valued number, which a
template literal prints in decimal. -/
def url (query : String) (page : Nat) : String :=
  if truthy query then
    API_BASE_URL ++ "/search/movie?query=" ++ encodeURIComponent query ++ "&page=" ++ toString page
  else
    API_BASE_URL ++ "/discover/movie?sort_by=popularity.desc&page=" ++ toString page

/-- The body of a catalog response as `fetchMovies` reads it: `results` may be
missing, `total_pages` is the upstream page count. -/
structure CatalogData where
  results : Option (List Movie)
  total_pages : Int
  deriving DecidableEq, Repr

/-- How the awaited `fetch(url, API_OPTIONS)` and the reading of the body end. -/
inductive CatalogOutcome where
  | networkError
  | httpError (status : Nat)
  | badBody
  | ok (data : CatalogData)
  deriving DecidableEq, Repr

/-- The `catch` block, lines 76-79. -/
def fetchMovies_catch : List Action :=
  [ .consoleError "Error fetching movies:",
    .setErrorMessage "Failed to fetch movies. Please try again.",
    .setMovieList [] ]

/-- The `finally` block, lines 80-82. -/
def fetchMovies_finally : List Action :=
  [ .setIsLoading false ]

/-- Lines 43-58, up to the first `await`: the loading flag and the error are
set before the key is looked at; without a key the `return` of line 50 leaves
through `finally`. -/
def fetchMovies_start (API_KEY : Option String) (query : String) (page : Nat) : List Action :=
  [ .setIsLoading true, .setErrorMessage "" ] ++
    if keyPresent API_KEY then
      [ .fetch (url query page) (API_OPTIONS API_KEY) ]
    else
      [ .consoleError "TMDB API Key is missing!", .setErrorMessage "API Key is missing" ] ++
        fetchMovies_finally

/-- The value stored by line 70. -/
def clampTotalPages (total_pages : Int) : Int :=
  if total_pages > 500 then 500 else total_pages

/-- The guard of line 73 and the second argument of line 74:
`query && data.results && data.results.length > 0`, then `data.results[0]`. -/
def topResult (query : String) (data : CatalogData) : Option Movie :=
  if truthy query then
    match data.results with
    | some (m :: _) => some m
    | _ => none
  else none

/-- Lines 58-75, from the settled `fetch` to the next `await` or the end. -/
def fetchMovies_onResponse (query : String) : CatalogOutcome → List Action
  | .networkError => fetchMovies_catch ++ fetchMovies_finally
  | .httpError _ => [ .consoleError "TMDB API Error:" ] ++ fetchMovies_catch ++ fetchMovies_finally
  | .badBody => fetchMovies_catch ++ fetchMovies_finally
  | .ok data =>
    [ .consoleLog "Movies fetched successfully:",
      .setMovieList (data.results.getD []),
      .setTotalPages (clampTotalPages data.total_pages) ] ++
      match topResult query data with
      | some m => [ .updateSearchCount query m ]
      | none => fetchMovies_finally

/-- After the awaited `updateSearchCount` of line 74: a resolved promise falls
through to `finally`, a rejected one goes through `catch` first. -/
def fetchMovies_onReport (resolved : Bool) : List Action :=
  if resolved then fetchMovies_finally else fetchMovies_catch ++ fetchMovies_finally

/-- Whether the call is suspended at line 74 after a response. -/
def awaitsReport (query : String) : CatalogOutcome → Bool
  | .ok data => (topResult query data).isSome
  | _ => false

/-- One call of `fetchMovies` as its synchronous segments, given how the
network call and the report end. -/
def fetchMovies (API_KEY : Option String) (query : String) (page : Nat)
    (outcome : CatalogOutcome) (reportResolved : Bool) : List (List Action) :=
  if keyPresent API_KEY then
    if awaitsReport query outcome then
      [ fetchMovies_start API_KEY query page, fetchMovies_onResponse query outcome,
        fetchMovies_onReport reportResolved ]
    else
      [ fetchMovies_start API_KEY query page, fetchMovies_onResponse query outcome ]
  else
    [ fetchMovies_start API_KEY query page ]

/-- Run the segments of one call from state `s`; `during i` is whatever the
rest of the application does to the state while the call is suspended for the
`i`-th time. -/
def runSegments (during : Nat → AppState → AppState) : Nat → AppState → List (List Action) → AppState
  | _, s, [] => s
  | _, s, [seg] => applyActions s seg
  | i, s, seg :: rest => runSegments during (i + 1) (during i (applyActions s seg)) rest

/-! ## `fetchMovieDetails`, `loadTrendingMovies` and the handlers -/

/-- How the awaited detail request ends. -/
inductive DetailOutcome where
  | networkError
  | httpError (status : Nat)
  | badBody
  | ok (data : Movie)
  deriving DecidableEq, Repr

/-- Lines 86-91, up to the `await`. -/
def fetchMovieDetails_start (API_KEY : Option String) (movieId : Nat) : List Action :=
  [ .setIsLoading true,
    .fetch (API_BASE_URL ++ "/movie/" ++ toString movieId ++ "?append_to_response=credits,videos")
      (API_OPTIONS API_KEY) ]

/-- Lines 93-105. -/
def fetchMovieDetails_onResponse : DetailOutcome → List Action
  | .ok data => [ .setSelectedMovie (some data), .setShowDetails true, .setIsLoading false ]
  | _ =>
    [ .consoleError "Error fetching movie details:",
      .setErrorMessage "Failed to fetch movie details",
      .setIsLoading false ]

/-- One call of `fetchMovieDetails` as its two segments. -/
def fetchMovieDetails (API_KEY : Option String) (movieId : Nat) (outcome : DetailOutcome) :
    List (List Action) :=
  [ fetchMovieDetails_start API_KEY movieId, fetchMovieDetails_onResponse outcome ]

/-- How the awaited `getTrendingMovies()` ends: `none` is a rejection, the
resolved value may be `undefined`. -/
abbrev TrendingOutcome := Option (Option (List TrendingEntry))

def loadTrendingMovies_start : List Action := [ .getTrendingMovies ]

/-- Lines 111-115. -/
def loadTrendingMovies_onSettled : TrendingOutcome → List Action
  | some movies => [ .consoleLog "Trending movies loaded:", .setTrendingMovies (movies.getD []) ]
  | none => [ .consoleError "Error fetching trending movies" ]

def handleMovieClick (API_KEY : Option String) (movieId : Nat) : List Action :=
  fetchMovieDetails_start API_KEY movieId

def handleCloseDetails : List Action :=
  [ .setShowDetails false, .setSelectedMovie none ]

def handlePageChange (page : Nat) : List Action :=
  [ .setCurrentPage page, .scrollTo 0 ]

/-! ## The component: renders, effects and events -/

/-- A call of `fetchMovies` suspended at the `await fetch` of line 58. -/
structure CatalogRequest where
  query : String
  page : Nat
  deriving DecidableEq, Repr

/-- The values of the dependency array `[debouncedSearchTerm, currentPage]`. -/
structure Deps where
  debouncedSearchTerm : String
  currentPage : Nat
  deriving DecidableEq, Repr

/-- The dependency values of a render. -/
def depsOf (s : AppState) : Deps :=
  { debouncedSearchTerm := s.debouncedSearchTerm, currentPage := s.currentPage }

/-- The component between events: the state cells, the dependency values of
the last render whose effects ran (`none` before the first render), and the
promises still pending. -/
structure Machine where
  app : AppState
  committed : Option Deps
  inFlight : List CatalogRequest
  reporting : Nat
  details : List Nat
  trending : Nat
  deriving DecidableEq, Repr

def Machine.initial : Machine :=
  { app := AppState.initial, committed := none, inFlight := [], reporting := 0,
    details := [], trending := 0 }

/-- The effect of lines 133-135, run when `debouncedSearchTerm` differs from
the previous render (and on the first render). -/
def pageResetEffect (prev : Option Deps) (s : AppState) : List Action :=
  if prev.map (fun d => d.debouncedSearchTerm) = some s.debouncedSearchTerm then []
  else [ .setCurrentPage 1 ]

/-- The effect of lines 137-139. Its closure holds the `debouncedSearchTerm`
and `currentPage` of the render it belongs to. -/
def fetchEffect (API_KEY : Option String) (prev : Option Deps) (s : AppState) : List Action :=
  if prev = some (depsOf s) then []
  else fetchMovies_start API_KEY s.debouncedSearchTerm s.currentPage

/-- The effect of lines 142-144, run on the first render only. -/
def mountEffect (prev : Option Deps) : List Action :=
  if prev.isNone then loadTrendingMovies_start else []

/-- A component is settled when the effects of its last render have run and
the dependency values have not changed since. -/
def Machine.settled (m : Machine) : Prop := m.committed = some (depsOf m.app)

instance (m : Machine) : Decidable m.settled := by
  unfold Machine.settled; infer_instance

/-- One render followed by its effects, in the order the hooks are written.
All three read the state `s` of that render; the setter calls they make are
queued and take effect together afterwards. -/
def renderPass (API_KEY : Option String) (m : Machine) : Machine × List Action :=
  let s := m.app
  let acts := pageResetEffect m.committed s ++ fetchEffect API_KEY m.committed s ++
    mountEffect m.committed
  ({ app := applyActions s acts
     committed := some (depsOf s)
     inFlight :=
       if m.committed ≠ some (depsOf s) ∧ keyPresent API_KEY = true then
         m.inFlight ++ [{ query := s.debouncedSearchTerm, page := s.currentPage }]
       else m.inFlight
     reporting := m.reporting
     details := m.details
     trending := if m.committed.isNone then m.trending + 1 else m.trending },
   acts)

/-- Render again as long as the dependency values differ from those of the
last render whose effects ran. -/
def commit (API_KEY : Option String) : Nat → Machine → Machine × List Action
  | 0, m => (m, [])
  | fuel + 1, m =>
    if m.settled then (m, [])
    else
      let r := renderPass API_KEY m
      let r2 := commit API_KEY fuel r.1
      (r2.1, r.2 ++ r2.2)

/-- What can happen to the component. The `Search` and `Pagination` children
are handed `setSearchTerm` and `handlePageChange`. -/
inductive Event where
  | mount
  | typed (text : String)
  | debounceElapsed
  | pageChange (page : Nat)
  | movieClick (movieId : Nat)
  | closeDetails
  | catalogResponse (req : CatalogRequest) (outcome : CatalogOutcome)
  | reportSettled (resolved : Bool)
  | detailResponse (movieId : Nat) (outcome : DetailOutcome)
  | trendingSettled (outcome : TrendingOutcome)
  deriving DecidableEq, Repr

/-- The calls made by the handler or continuation an event runs, with the
bookkeeping of pending promises; `none` when the event cannot happen. -/
def handle (API_KEY : Option String) (m : Machine) : Event → Option (Machine × List Action)
  | .mount => if m.committed.isNone then some (m, []) else none
  | .typed text => if m.committed.isSome then some (m, [ .setSearchTerm text ]) else none
  | .debounceElapsed =>
    if m.committed.isSome then some (m, [ .setDebouncedSearchTerm m.app.searchTerm ]) else none
  | .pageChange page => if m.committed.isSome then some (m, handlePageChange page) else none
  | .movieClick movieId =>
    if m.committed.isSome then
      some ({ m with details := m.details ++ [movieId] }, handleMovieClick API_KEY movieId)
    else none
  | .closeDetails => if m.committed.isSome then some (m, handleCloseDetails) else none
  | .catalogResponse req outcome =>
    if req ∈ m.inFlight then
      some ({ m with
                inFlight := m.inFlight.erase req
                reporting := if awaitsReport req.query outcome then m.reporting + 1 else m.reporting },
            fetchMovies_onResponse req.query outcome)
    else none
  | .reportSettled resolved =>
    if 0 < m.reporting then
      some ({ m with reporting := m.reporting - 1 }, fetchMovies_onReport resolved)
    else none
  | .detailResponse movieId outcome =>
    if movieId ∈ m.details then
      some ({ m with details := m.details.erase movieId }, fetchMovieDetails_onResponse outcome)
    else none
  | .trendingSettled outcome =>
    if 0 < m.trending then
      some ({ m with trending := m.trending - 1 }, loadTrendingMovies_onSettled outcome)
    else none

/-- One event: its handler runs, the queued setter calls take effect, and the
component renders until the effects have nothing left to do. The second
component is every call made, in order. -/
def step (API_KEY : Option String) (m : Machine) (e : Event) : Option (Machine × List Action) :=
  match handle API_KEY m e with
  | none => none
  | some (m1, acts) =>
    let r := commit API_KEY 3 { m1 with app := applyActions m1.app acts }
    some (r.1, acts ++ r.2)

/-- Run a list of events, collecting the calls made. -/
def run (API_KEY : Option String) : Machine → List Event → Option (Machine × List Action)
  | m, [] => some (m, [])
  | m, e :: es =>
    match step API_KEY m e with
    | none => none
    | some (m1, acts) =>
      match run API_KEY m1 es with
      | none => none
      | some (m2, acts2) => some (m2, acts ++ acts2)

/-- The states the component can be in. -/
inductive Reachable (API_KEY : Option String) : Machine → Prop where
  | initial : Reachable API_KEY Machine.initial
  | step {m m1 : Machine} {e : Event} {acts : List Action} :
      Reachable API_KEY m → step API_KEY m e = some (m1, acts) → Reachable API_KEY m1

/-- The catalog requests among a list of calls, by URL. -/
def fetchedUrls : List Action → List String
  | [] => []
  | .fetch u _ :: rest => u :: fetchedUrls rest
  | _ :: rest => fetchedUrls rest

/-- The calls of `updateSearchCount` among a list of calls, with arguments. -/
def reportCalls : List Action → List (String × Movie)
  | [] => []
  | .updateSearchCount q m :: rest => (q, m) :: reportCalls rest
  | _ :: rest => reportCalls rest

/-! ## The "All Movies" section (App.jsx lines 173-203) -/

/-- The children the section can have. -/
inductive Element where
  | heading (text : String)
  | spinner
  | errorText (message : String)
  | movieCards (movies : List Movie)
  | paginationControls (currentPage : Nat) (totalPages : Int)
  | emptyState
  deriving DecidableEq, Repr

/-- The children of `<section className="all-movies">`, in order: the heading
and the nested conditional of lines 176-202. -/
def allMoviesSection (s : AppState) : List Element :=
  [ .heading "All Movies" ] ++
    if s.isLoading then [ .spinner ]
    else if truthy s.errorMessage then [ .errorText s.errorMessage ]
    else if 0 < s.movieList.length then
      [ .movieCards s.movieList ] ++
        if 1 < s.totalPages then [ .paginationControls s.currentPage s.totalPages ] else []
    else [ .emptyState ]

/-- The four alternatives of the conditional. -/
def Element.isAlternative : Element → Bool
  | .spinner => true
  | .errorText _ => true
  | .movieCards _ => true
  | .emptyState => true
  | _ => false

/-- Whether an element is the pagination control. -/
def Element.isPagination : Element → Bool
  | .paginationControls _ _ => true
  | _ => false

/-! ## Reading a URI component back -/

/-- The value of a hexadecimal digit. -/
def hexValue (c : Char) : Option Nat :=
  let n := c.toNat
  if 48 ≤ n ∧ n ≤ 57 then some (n - 48)
  else if 65 ≤ n ∧ n ≤ 70 then some (n - 55)
  else if 97 ≤ n ∧ n ≤ 102 then some (n - 87)
  else none

/-- The octets a URI component stands for: `%XX` is the octet `XX`, any other
ASCII character is its own octet. -/
def percentDecode : List Char → Option (List Nat)
  | [] => some []
  | c :: rest =>
    if c = '%' then
      match rest with
      | h :: l :: rest2 =>
        match hexValue h, hexValue l, percentDecode rest2 with
        | some a, some b, some bs => some ((16 * a + b) :: bs)
        | _, _, _ => none
      | _ => none
    else if c.toNat < 128 then (percentDecode rest).map (List.cons c.toNat)
    else none

/-- Whether an octet is a UTF-8 continuation octet. -/
def isContinuation (b : Nat) : Bool := 0x80 ≤ b && b < 0xC0

/-- The characters a sequence of UTF-8 octets stands for. -/
def utf8Decode : List Nat → Option (List Char)
  | [] => some []
  | b0 :: rest =>
    if b0 < 0x80 then (utf8Decode rest).map (List.cons (Char.ofNat b0))
    else
      match rest with
      | [] => none
      | b1 :: rest1 =>
        if 0xC0 ≤ b0 ∧ b0 < 0xE0 then
          if isContinuation b1 then
            (utf8Decode rest1).map (List.cons (Char.ofNat ((b0 - 0xC0) * 64 + (b1 - 0x80))))
          else none
        else
          match rest1 with
          | [] => none
          | b2 :: rest2 =>
            if 0xE0 ≤ b0 ∧ b0 < 0xF0 then
              if isContinuation b1 ∧ isContinuation b2 then
                (utf8Decode rest2).map (List.cons
                  (Char.ofNat ((b0 - 0xE0) * 4096 + (b1 - 0x80) * 64 + (b2 - 0x80))))
              else none
            else
              match rest2 with
              | [] => none
              | b3 :: rest3 =>
                if 0xF0 ≤ b0 ∧ b0 < 0xF8 ∧ isContinuation b1 ∧ isContinuation b2 ∧
                    isContinuation b3 then
                  (utf8Decode rest3).map (List.cons
                    (Char.ofNat ((b0 - 0xF0) * 262144 + (b1 - 0x80) * 4096 +
                      (b2 - 0x80) * 64 + (b3 - 0x80))))
                else none

/-- The string a URI component stands for. -/
def decodeComponent (s : String) : Option String :=
  ((percentDecode s.data).bind utf8Decode).map String.mk

/-! ## Sample data -/

def sampleKey : Option String := some "key"

def dune : Movie := { id := 438631, title := "Dune", poster_path := some "/dune.jpg" }

def pageTwoMovie : Movie := { id := 2, title := "On page two", poster_path := none }

def pageThreeMovie : Movie := { id := 3, title := "On page three", poster_path := none }

/-- Scenario D: the first render, then the page changes 1, 2, 3 with no
response yet. -/
def scenarioD : Machine :=
  ((run sampleKey Machine.initial [.mount, .pageChange 2, .pageChange 3]).getD
    (Machine.initial, [])).1

/-- Scenario D after the response for page 3 has arrived. -/
def scenarioD_page3 : Machine × List Action :=
  (step sampleKey scenarioD
    (.catalogResponse { query := "", page := 3 }
      (.ok { results := some [pageThreeMovie], total_pages := 9 }))).getD (Machine.initial, [])

/-- Scenario D after the response for page 2 has arrived as well. -/
def scenarioD_page2 : Machine × List Action :=
  (step sampleKey scenarioD_page3.1
    (.catalogResponse { query := "", page := 2 }
      (.ok { results := some [pageTwoMovie], total_pages := 9 }))).getD (Machine.initial, [])

/-- The first render of a build without a key. -/
def mountedWithoutKey : Machine × List Action :=
  (step none Machine.initial .mount).getD (Machine.initial, [])

/-! ## Renders and effects -/

theorem applyActions_append (s : AppState) (a b : List Action) :
    applyActions s (a ++ b) = applyActions (applyActions s a) b := by
  simp [applyActions, List.foldl_append]

/-- What the effects of one render leave of the state cells. -/
theorem renderPass_app (API_KEY : Option String) (m : Machine) :
    let r := (renderPass API_KEY m).1
    r.app.movieList = m.app.movieList ∧ r.app.totalPages = m.app.totalPages ∧
    r.app.debouncedSearchTerm = m.app.debouncedSearchTerm ∧
    r.app.searchTerm = m.app.searchTerm ∧
    r.app.selectedMovie = m.app.selectedMovie ∧ r.app.showDetails = m.app.showDetails ∧
    r.app.trendingMovies = m.app.trendingMovies ∧
    r.app.currentPage =
      (if m.committed.map (fun d => d.debouncedSearchTerm) = some m.app.debouncedSearchTerm
        then m.app.currentPage else 1) ∧
    r.committed = some (depsOf m.app) := by
  simp only [renderPass, pageResetEffect, fetchEffect, mountEffect, fetchMovies_start,
    fetchMovies_finally, loadTrendingMovies_start]
  split_ifs <;> simp [applyActions, applyAction]

theorem commit_settled_eq (API_KEY : Option String) (n : Nat) (m : Machine) (h : m.settled) :
    commit API_KEY n m = (m, []) := by
  cases n with
  | zero => rfl
  | succ k => simp only [commit]; exact if_pos h

theorem commit_succ_of_not_settled (API_KEY : Option String) (n : Nat) (m : Machine)
    (h : ¬ m.settled) :
    commit API_KEY (n + 1) m =
      ((commit API_KEY n (renderPass API_KEY m).1).1,
        (renderPass API_KEY m).2 ++ (commit API_KEY n (renderPass API_KEY m).1).2) := by
  simp only [commit]; exact if_neg h

/-- The second render in a row has nothing left to do: the only dependency an
effect writes is `currentPage`, and only when `debouncedSearchTerm` changed. -/
theorem renderPass_twice_settled (API_KEY : Option String) (m : Machine) :
    (renderPass API_KEY (renderPass API_KEY m).1).1.settled := by
  obtain ⟨-, -, hq, -, -, -, -, hp, hc⟩ := renderPass_app API_KEY m
  obtain ⟨-, -, hq2, -, -, -, -, hp2, hc2⟩ := renderPass_app API_KEY (renderPass API_KEY m).1
  simp only [Machine.settled, depsOf] at *
  rw [hc2]
  rw [hp2, hq2, hc]
  simp [hq]

/-- The render loop of `step` always ends settled. -/
theorem commit_settled (API_KEY : Option String) (m : Machine) :
    (commit API_KEY 3 m).1.settled := by
  by_cases h0 : m.settled
  · rw [commit_settled_eq _ _ _ h0]; exact h0
  · rw [commit_succ_of_not_settled _ _ _ h0]
    by_cases h1 : (renderPass API_KEY m).1.settled
    · rw [commit_settled_eq _ _ _ h1]; exact h1
    · rw [commit_succ_of_not_settled _ _ _ h1]
      rw [commit_settled_eq _ _ _ (renderPass_twice_settled _ _)]
      exact renderPass_twice_settled _ _

/-- More fuel changes nothing: two renders always suffice. -/
theorem commit_fuel (API_KEY : Option String) (n : Nat) (m : Machine) :
    commit API_KEY (n + 2) m = commit API_KEY 2 m := by
  by_cases h0 : m.settled
  · rw [commit_settled_eq _ _ _ h0, commit_settled_eq _ _ _ h0]
  · rw [commit_succ_of_not_settled _ _ _ h0, commit_succ_of_not_settled _ 1 _ h0]
    by_cases h1 : (renderPass API_KEY m).1.settled
    · rw [commit_settled_eq _ _ _ h1, commit_settled_eq _ _ _ h1]
    · rw [commit_succ_of_not_settled _ _ _ h1, commit_succ_of_not_settled _ 0 _ h1]
      rw [commit_settled_eq _ _ _ (renderPass_twice_settled _ _),
        commit_settled_eq _ _ _ (renderPass_twice_settled _ _)]

/-- The effects never write the result list, the page count or the query. -/
theorem commit_app (API_KEY : Option String) (n : Nat) (m : Machine) :
    (commit API_KEY n m).1.app.movieList = m.app.movieList ∧
    (commit API_KEY n m).1.app.totalPages = m.app.totalPages ∧
    (commit API_KEY n m).1.app.debouncedSearchTerm = m.app.debouncedSearchTerm := by
  induction n generalizing m with
  | zero => simp [commit]
  | succ k ih =>
    by_cases h : m.settled
    · rw [commit_settled_eq _ _ _ h]; simp
    · rw [commit_succ_of_not_settled _ _ _ h]
      obtain ⟨h1, h2, h3, -⟩ := renderPass_app API_KEY m
      obtain ⟨i1, i2, i3⟩ := ih (renderPass API_KEY m).1
      exact ⟨i1.trans h1, i2.trans h2, i3.trans h3⟩

theorem step_eq_some {API_KEY : Option String} {m m1 : Machine} {e : Event} {acts : List Action}
    (h : step API_KEY m e = some (m1, acts)) :
    ∃ mh hacts, handle API_KEY m e = some (mh, hacts) ∧
      m1 = (commit API_KEY 3 { mh with app := applyActions mh.app hacts }).1 ∧
      acts = hacts ++ (commit API_KEY 3 { mh with app := applyActions mh.app hacts }).2 := by
  unfold step at h
  split at h
  · cases h
  · rename_i mh hacts hh
    simp only [Option.some.injEq, Prod.mk.injEq] at h
    exact ⟨mh, hacts, hh, h.1.symm, h.2.symm⟩

/-- After the first render the component is settled between events. -/
theorem reachable_settled {API_KEY : Option String} {m : Machine} (h : Reachable API_KEY m) :
    m = Machine.initial ∨ m.settled := by
  cases h with
  | initial => exact Or.inl rfl
  | step _ hs =>
    obtain ⟨mh, hacts, -, rfl, -⟩ := step_eq_some hs
    exact Or.inr (commit_settled _ _)

/-- What a delivered catalog response writes to `movieList`. -/
theorem onResponse_movieList (s : AppState) (query : String) (outcome : CatalogOutcome) :
    (applyActions s (fetchMovies_onResponse query outcome)).movieList =
      match outcome with
      | .ok data => data.results.getD []
      | _ => [] := by
  cases outcome with
  | ok data =>
    unfold fetchMovies_onResponse
    cases h : topResult query data <;> simp [h, applyActions, applyAction, fetchMovies_finally]
  | _ =>
    simp [fetchMovies_onResponse, fetchMovies_catch, fetchMovies_finally, applyActions,
      applyAction]

/-- What a delivered catalog response leaves of the other cells. -/
theorem onResponse_cells (s : AppState) (query : String) (outcome : CatalogOutcome) :
    let s1 := applyActions s (fetchMovies_onResponse query outcome)
    s1.debouncedSearchTerm = s.debouncedSearchTerm ∧ s1.currentPage = s.currentPage ∧
    s1.totalPages = (match outcome with
      | .ok data => clampTotalPages data.total_pages
      | _ => s.totalPages) ∧
    s1.errorMessage = (match outcome with
      | .ok _ => s.errorMessage
      | _ => "Failed to fetch movies. Please try again.") := by
  cases outcome with
  | ok data =>
    unfold fetchMovies_onResponse
    cases h : topResult query data <;> simp [h, applyActions, applyAction, fetchMovies_finally]
  | _ =>
    simp [fetchMovies_onResponse, fetchMovies_catch, fetchMovies_finally, applyActions,
      applyAction]

/-- A handler only books promises; the cells change through its calls. -/
theorem handle_frame {API_KEY : Option String} {m mh : Machine} {e : Event}
    {hacts : List Action} (h : handle API_KEY m e = some (mh, hacts)) :
    mh.app = m.app ∧ mh.committed = m.committed := by
  cases e <;> simp only [handle] at h <;> split_ifs at h <;>
    simp only [Option.some.injEq, Prod.mk.injEq] at h <;> obtain ⟨rfl, -⟩ := h <;> simp

theorem handle_catalogResponse {API_KEY : Option String} {m mh : Machine} {req : CatalogRequest}
    {outcome : CatalogOutcome} {hacts : List Action}
    (h : handle API_KEY m (.catalogResponse req outcome) = some (mh, hacts)) :
    req ∈ m.inFlight ∧ hacts = fetchMovies_onResponse req.query outcome := by
  simp only [handle] at h
  split_ifs at h with hin <;> simp only [Option.some.injEq, Prod.mk.injEq] at h <;>
    exact ⟨hin, h.2.symm⟩

/-- When the calls of a handler leave the dependencies alone, no effect runs. -/
theorem step_of_settled {API_KEY : Option String} {m mh m1 : Machine} {e : Event}
    {hacts acts : List Action} (hh : handle API_KEY m e = some (mh, hacts))
    (hs : m.settled) (hd : depsOf (applyActions m.app hacts) = depsOf m.app)
    (h : step API_KEY m e = some (m1, acts)) :
    m1.app = applyActions m.app hacts ∧ acts = hacts := by
  obtain ⟨mh2, hacts2, hh2, rfl, rfl⟩ := step_eq_some h
  rw [hh] at hh2
  simp only [Option.some.injEq, Prod.mk.injEq] at hh2
  obtain ⟨rfl, rfl⟩ := hh2
  obtain ⟨ha, hc⟩ := handle_frame hh
  have hset : Machine.settled { mh with app := applyActions mh.app hacts } := by
    simp only [Machine.settled] at hs ⊢
    rw [hc, ha, hd]; exact hs
  rw [commit_settled_eq _ _ _ hset]
  simp [ha]

/-- The step that delivers a catalog response: the continuation of
`fetchMovies` runs on the state as it is, and no effect follows. -/
theorem step_catalogResponse {API_KEY : Option String} {m m1 : Machine} {req : CatalogRequest}
    {outcome : CatalogOutcome} {acts : List Action}
    (h : step API_KEY m (.catalogResponse req outcome) = some (m1, acts))
    (hs : m = Machine.initial ∨ m.settled) :
    m1.app = applyActions m.app (fetchMovies_onResponse req.query outcome) ∧
    acts = fetchMovies_onResponse req.query outcome := by
  obtain ⟨mh, hacts, hh, -, -⟩ := step_eq_some h
  obtain ⟨hin, rfl⟩ := handle_catalogResponse hh
  have hset : m.settled := by
    rcases hs with rfl | hs
    · simp [Machine.initial] at hin
    · exact hs
  obtain ⟨hq, hp, -, -⟩ := onResponse_cells m.app req.query outcome
  exact step_of_settled hh hset (by simp [depsOf, hq, hp]) h

/-! ## The component without a key -/

theorem commit_inFlight_no_key (API_KEY : Option String) (hkey : keyPresent API_KEY = false)
    (n : Nat) (m : Machine) : (commit API_KEY n m).1.inFlight = m.inFlight := by
  induction n generalizing m with
  | zero => simp [commit]
  | succ k ih =>
    by_cases h : m.settled
    · rw [commit_settled_eq _ _ _ h]
    · rw [commit_succ_of_not_settled _ _ _ h]
      rw [ih]
      simp [renderPass, hkey]

theorem handle_no_key {API_KEY : Option String} {m mh : Machine} {e : Event}
    {hacts : List Action} (h : handle API_KEY m e = some (mh, hacts))
    (hl : m.app.movieList = []) (hf : m.inFlight = []) :
    (applyActions mh.app hacts).movieList = [] ∧ mh.inFlight = [] := by
  cases e with
  | catalogResponse req outcome =>
    obtain ⟨hin, -⟩ := handle_catalogResponse h
    simp [hf] at hin
  | reportSettled resolved =>
    simp only [handle] at h
    split_ifs at h
    simp only [Option.some.injEq, Prod.mk.injEq] at h
    obtain ⟨rfl, rfl⟩ := h
    cases resolved <;>
      simp [fetchMovies_onReport, fetchMovies_catch, fetchMovies_finally, applyActions,
        applyAction, hl, hf]
  | detailResponse movieId outcome =>
    simp only [handle] at h
    split_ifs at h
    simp only [Option.some.injEq, Prod.mk.injEq] at h
    obtain ⟨rfl, rfl⟩ := h
    cases outcome <;> simp [fetchMovieDetails_onResponse, applyActions, applyAction, hl, hf]
  | trendingSettled outcome =>
    simp only [handle] at h
    split_ifs at h
    simp only [Option.some.injEq, Prod.mk.injEq] at h
    obtain ⟨rfl, rfl⟩ := h
    cases outcome <;> simp [loadTrendingMovies_onSettled, applyActions, applyAction, hl, hf]
  | _ =>
    simp only [handle] at h
    split_ifs at h
    simp only [Option.some.injEq, Prod.mk.injEq] at h
    obtain ⟨rfl, rfl⟩ := h
    simp [handlePageChange, handleMovieClick, handleCloseDetails, fetchMovieDetails_start,
      applyActions, applyAction, hl, hf]

/-- Without a key no request is ever in flight and the result list stays empty. -/
theorem reachable_no_key {API_KEY : Option String} {m : Machine} (h : Reachable API_KEY m)
    (hkey : keyPresent API_KEY = false) : m.app.movieList = [] ∧ m.inFlight = [] := by
  induction h with
  | initial => exact ⟨rfl, rfl⟩
  | step _ hs ih =>
    obtain ⟨mh, hacts, hh, rfl, -⟩ := step_eq_some hs
    obtain ⟨h1, h2⟩ := handle_no_key hh ih.1 ih.2
    refine ⟨?_, ?_⟩
    · rw [(commit_app _ _ _).1]; exact h1
    · rw [commit_inFlight_no_key _ hkey]; exact h2


theorem renderPass_no_key (API_KEY : Option String) (hkey : keyPresent API_KEY = false)
    (m : Machine) (h : ¬ m.settled) :
    (renderPass API_KEY m).1.app.errorMessage = "API Key is missing" ∧
    Action.setErrorMessage "" ∈ (renderPass API_KEY m).2 := by
  have h2 : ¬ (m.committed = some (depsOf m.app)) := h
  simp only [renderPass, pageResetEffect, fetchEffect, mountEffect, fetchMovies_start,
    fetchMovies_finally, loadTrendingMovies_start, hkey, if_neg h2]
  split_ifs <;> first | contradiction | simp [applyActions, applyAction]

theorem commit_error_no_key (API_KEY : Option String) (hkey : keyPresent API_KEY = false)
    (n : Nat) (m : Machine) :
    (Action.setErrorMessage "" ∈ (commit API_KEY n m).2 →
      (commit API_KEY n m).1.app.errorMessage = "API Key is missing") ∧
    (Action.setErrorMessage "" ∉ (commit API_KEY n m).2 →
      (commit API_KEY n m).1.app.errorMessage = m.app.errorMessage) := by
  induction n generalizing m with
  | zero => simp [commit]
  | succ k ih =>
    by_cases h : m.settled
    · rw [commit_settled_eq _ _ _ h]; simp
    · rw [commit_succ_of_not_settled _ _ _ h]
      obtain ⟨he, hin⟩ := renderPass_no_key API_KEY hkey m h
      obtain ⟨i1, i2⟩ := ih (renderPass API_KEY m).1
      constructor
      · intro _
        by_cases hc : Action.setErrorMessage "" ∈ (commit API_KEY k (renderPass API_KEY m).1).2
        · exact i1 hc
        · rw [i2 hc]; exact he
      · intro hn
        exact absurd (List.mem_append_left _ hin) hn

/-- Only `fetchMovies_start` (line 44) clears the error message. -/
theorem handle_no_clear {API_KEY : Option String} {m mh : Machine} {e : Event}
    {hacts : List Action} (h : handle API_KEY m e = some (mh, hacts)) :
    Action.setErrorMessage "" ∉ hacts := by
  cases e with
  | catalogResponse req outcome =>
    obtain ⟨-, rfl⟩ := handle_catalogResponse h
    cases outcome with
    | ok data =>
      unfold fetchMovies_onResponse
      cases ht : topResult req.query data <;> simp [ht, fetchMovies_finally]
    | _ => simp [fetchMovies_onResponse, fetchMovies_catch, fetchMovies_finally]
  | reportSettled resolved =>
    simp only [handle] at h
    split_ifs at h
    simp only [Option.some.injEq, Prod.mk.injEq] at h
    obtain ⟨rfl, rfl⟩ := h
    cases resolved <;> simp [fetchMovies_onReport, fetchMovies_catch, fetchMovies_finally]
  | detailResponse movieId outcome =>
    simp only [handle] at h
    split_ifs at h
    simp only [Option.some.injEq, Prod.mk.injEq] at h
    obtain ⟨rfl, rfl⟩ := h
    cases outcome <;> simp [fetchMovieDetails_onResponse]
  | trendingSettled outcome =>
    simp only [handle] at h
    split_ifs at h
    simp only [Option.some.injEq, Prod.mk.injEq] at h
    obtain ⟨rfl, rfl⟩ := h
    cases outcome <;> simp [loadTrendingMovies_onSettled]
  | _ =>
    simp only [handle] at h
    split_ifs at h
    simp only [Option.some.injEq, Prod.mk.injEq] at h
    obtain ⟨rfl, rfl⟩ := h
    simp [handlePageChange, handleMovieClick, handleCloseDetails, fetchMovieDetails_start]

/-! ## `encodeURIComponent` can be read back -/

theorem char_range (c : Char) : c.toNat < 0xD800 ∨ (0xDFFF < c.toNat ∧ c.toNat < 0x110000) := by
  have := c.valid
  simpa [UInt32.isValidChar, Nat.isValidChar, Char.toNat] using this


theorem utf8Decode_utf8Bytes (c : Char) (rest : List Nat) :
    utf8Decode (utf8Bytes c.toNat ++ rest) = (utf8Decode rest).map (List.cons c) := by
  have hr := char_range c
  have hc : Char.ofNat c.toNat = c := Char.ofNat_toNat c
  unfold utf8Bytes
  split_ifs with h1 h2 h3
  · rw [List.singleton_append, utf8Decode.eq_def]
    simp only [if_pos h1, hc]
  · have e : (0xC0 + c.toNat / 64 - 0xC0) * 64 + (0x80 + c.toNat % 64 - 0x80) = c.toNat := by omega
    have a1 : ¬ (0xC0 + c.toNat / 64 < 0x80) := by omega
    have a2 : 0xC0 ≤ 0xC0 + c.toNat / 64 ∧ 0xC0 + c.toNat / 64 < 0xE0 := by omega
    have a3 : isContinuation (0x80 + c.toNat % 64) = true := by
      simp [isContinuation]; omega
    rw [List.cons_append, List.singleton_append, utf8Decode.eq_def]
    simp only [if_neg a1, if_pos a2, a3, if_true, e, hc]
  · have e : (0xE0 + c.toNat / 4096 - 0xE0) * 4096 + (0x80 + c.toNat / 64 % 64 - 0x80) * 64 +
        (0x80 + c.toNat % 64 - 0x80) = c.toNat := by omega
    have a1 : ¬ (0xE0 + c.toNat / 4096 < 0x80) := by omega
    have a2 : ¬ (0xC0 ≤ 0xE0 + c.toNat / 4096 ∧ 0xE0 + c.toNat / 4096 < 0xE0) := by omega
    have a3 : 0xE0 ≤ 0xE0 + c.toNat / 4096 ∧ 0xE0 + c.toNat / 4096 < 0xF0 := by omega
    have a4 : isContinuation (0x80 + c.toNat / 64 % 64) = true := by
      simp [isContinuation]; omega
    have a5 : isContinuation (0x80 + c.toNat % 64) = true := by
      simp [isContinuation]; omega
    rw [List.cons_append, List.cons_append, List.singleton_append, utf8Decode.eq_def]
    simp only [if_neg a1, if_neg a2, if_pos a3, a4, a5, and_self, if_true, e, hc]
  · have e : (0xF0 + c.toNat / 262144 - 0xF0) * 262144 + (0x80 + c.toNat / 4096 % 64 - 0x80) * 4096 +
        (0x80 + c.toNat / 64 % 64 - 0x80) * 64 + (0x80 + c.toNat % 64 - 0x80) = c.toNat := by omega
    have a1 : ¬ (0xF0 + c.toNat / 262144 < 0x80) := by omega
    have a2 : ¬ (0xC0 ≤ 0xF0 + c.toNat / 262144 ∧ 0xF0 + c.toNat / 262144 < 0xE0) := by omega
    have a3 : ¬ (0xE0 ≤ 0xF0 + c.toNat / 262144 ∧ 0xF0 + c.toNat / 262144 < 0xF0) := by omega
    have a4 : 0xF0 ≤ 0xF0 + c.toNat / 262144 ∧ 0xF0 + c.toNat / 262144 < 0xF8 := by omega
    have a5 : isContinuation (0x80 + c.toNat / 4096 % 64) = true := by
      simp [isContinuation]; omega
    have a6 : isContinuation (0x80 + c.toNat / 64 % 64) = true := by
      simp [isContinuation]; omega
    have a7 : isContinuation (0x80 + c.toNat % 64) = true := by
      simp [isContinuation]; omega
    rw [List.cons_append, List.cons_append, List.cons_append, List.singleton_append, utf8Decode.eq_def]
    simp only [if_neg a1, if_neg a2, if_neg a3, a4, a5, a6, a7, and_self, if_true, e, hc]

theorem hexValue_hexDigit (n : Nat) (h : n < 16) : hexValue (hexDigit n) = some n := by
  interval_cases n <;> decide

theorem percentDecode_percentByte (b : Nat) (h : b < 256) (rest : List Char) :
    percentDecode (percentByte b ++ rest) = (percentDecode rest).map (List.cons b) := by
  have h1 : hexValue (hexDigit (b / 16)) = some (b / 16) := hexValue_hexDigit _ (by omega)
  have h2 : hexValue (hexDigit (b % 16)) = some (b % 16) := hexValue_hexDigit _ (by omega)
  have e : 16 * (b / 16) + b % 16 = b := by omega
  unfold percentByte
  rw [List.cons_append, percentDecode.eq_def]
  simp only [List.cons_append, List.nil_append, if_true, h1, h2]
  cases percentDecode rest <;> simp [e]

theorem utf8Bytes_lt (c : Char) : ∀ b ∈ utf8Bytes c.toNat, b < 256 := by
  have hr := char_range c
  unfold utf8Bytes
  split_ifs <;> simp <;> omega

theorem percentDecode_flatMap (bs : List Nat) (h : ∀ b ∈ bs, b < 256) (rest : List Char) :
    percentDecode (bs.flatMap percentByte ++ rest) =
      (percentDecode rest).map (fun tl => bs ++ tl) := by
  induction bs with
  | nil => simp
  | cons b bs ih =>
    rw [List.flatMap_cons, List.append_assoc,
      percentDecode_percentByte b (h b (List.mem_cons_self _ _)),
      ih (fun x hx => h x (List.mem_cons_of_mem _ hx))]
    cases percentDecode rest <;> simp

theorem percentDecode_encodeChar (c : Char) (rest : List Char) :
    percentDecode (encodeChar c ++ rest) =
      (percentDecode rest).map (fun tl => utf8Bytes c.toNat ++ tl) := by
  unfold encodeChar
  split_ifs with hu
  · have hlt : c.toNat < 128 := by
      simp only [uriUnreserved, Bool.or_eq_true, Bool.and_eq_true, decide_eq_true_eq,
        beq_iff_eq] at hu
      omega
    have hne : c ≠ '%' := by
      rintro rfl
      exact absurd hu (by decide)
    rw [List.singleton_append, percentDecode.eq_def]
    simp only [if_neg hne, if_pos hlt, utf8Bytes, if_pos hlt]
    cases percentDecode rest <;> simp
  · exact percentDecode_flatMap _ (utf8Bytes_lt c) rest

theorem percentDecode_encode (cs : List Char) :
    percentDecode (cs.flatMap encodeChar) = some (cs.flatMap (fun c => utf8Bytes c.toNat)) := by
  induction cs with
  | nil => simp [percentDecode]
  | cons c cs ih => rw [List.flatMap_cons, percentDecode_encodeChar, ih]; simp

theorem utf8Decode_encode (cs : List Char) :
    utf8Decode (cs.flatMap (fun c => utf8Bytes c.toNat)) = some cs := by
  induction cs with
  | nil => simp [utf8Decode]
  | cons c cs ih => rw [List.flatMap_cons, utf8Decode_utf8Bytes, ih]; simp

/-- Reading back what `encodeURIComponent` wrote gives the string itself. -/
theorem decodeComponent_encodeURIComponent (s : String) :
    decodeComponent (encodeURIComponent s) = some s := by
  simp [decodeComponent, encodeURIComponent, percentDecode_encode, utf8Decode_encode]



/-! ## The claims -/

/-- C1 (as stated, refuted): in Scenario D the requests for pages 1, 2 and 3 are
issued in that order; the response for page 3 arrives first and the response
for page 2 afterwards. The list shown at the end is the one of page 2, while
`currentPage` is 3: the response of the older request is written over the
newer one. -/
theorem stale_response_overwrites_newer :
    (run sampleKey Machine.initial
        [.mount, .pageChange 2, .pageChange 3,
         .catalogResponse { query := "", page := 3 }
           (.ok { results := some [pageThreeMovie], total_pages := 9 }),
         .catalogResponse { query := "", page := 2 }
           (.ok { results := some [pageTwoMovie], total_pages := 9 })]).map
      (fun r => (fetchedUrls r.2, r.1.app.currentPage, r.1.app.movieList)) =
      some ([url "" 1, url "" 2, url "" 3], 3, [pageTwoMovie]) ∧
    [pageTwoMovie] ≠ [pageThreeMovie] := by
  decide

/-- C1 (amended): responses take effect in the order they arrive. When the
response `o2` of one request is delivered and then the response `o1` of
another, whichever was issued first, the state after both holds what `o1`
wrote: `movieList` is the result list of `o1` (empty on a failure),
`totalPages` is its clamped page count when `o1` succeeded, and `errorMessage`
is the failure message when `o1` failed; the cells `o1` does not write are as
`o2` left them. -/
theorem responses_take_effect_in_arrival_order (API_KEY : Option String) (m ma mb : Machine)
    (g1 g2 : CatalogRequest) (o1 o2 : CatalogOutcome) (acts2 acts1 : List Action)
    (h2 : step API_KEY m (.catalogResponse g2 o2) = some (ma, acts2))
    (h1 : step API_KEY ma (.catalogResponse g1 o1) = some (mb, acts1)) :
    (∀ data, o1 = .ok data →
      mb.app.movieList = data.results.getD [] ∧
      mb.app.totalPages = clampTotalPages data.total_pages ∧
      mb.app.errorMessage = ma.app.errorMessage) ∧
    ((∀ data, o1 ≠ .ok data) →
      mb.app.movieList = [] ∧
      mb.app.totalPages = ma.app.totalPages ∧
      mb.app.errorMessage = "Failed to fetch movies. Please try again.") := by
  have hsa : ma = Machine.initial ∨ ma.settled := by
    obtain ⟨mh, hacts, -, rfl, -⟩ := step_eq_some h2
    exact Or.inr (commit_settled _ _)
  obtain ⟨ha, -⟩ := step_catalogResponse h1 hsa
  rw [ha]
  obtain ⟨-, -, ht, he⟩ := onResponse_cells ma.app g1.query o1
  have hl := onResponse_movieList ma.app g1.query o1
  constructor
  · rintro data rfl
    exact ⟨hl, ht, he⟩
  · intro hne
    cases o1 with
    | ok data => exact absurd rfl (hne data)
    | _ => exact ⟨hl, ht, he⟩

theorem responses_take_effect_in_arrival_order_witness :
    scenarioD_page2.1.app.movieList = [pageTwoMovie] ∧
    scenarioD_page2.1.app.totalPages = 9 ∧
    scenarioD_page2.1.app.errorMessage = scenarioD_page3.1.app.errorMessage :=
  (responses_take_effect_in_arrival_order sampleKey scenarioD scenarioD_page3.1 scenarioD_page2.1
    { query := "", page := 2 } { query := "", page := 3 }
    (.ok { results := some [pageTwoMovie], total_pages := 9 })
    (.ok { results := some [pageThreeMovie], total_pages := 9 })
    scenarioD_page3.2 scenarioD_page2.2 (by decide) (by decide)).1 _ rfl

/-- C2 (evaluated at the failing input): with `currentPage` 3 and the query
changing from the empty string to `dune`, the step in which the debounced
query changes issues two catalog requests. The first carries page 3: the
fetch effect runs with the `currentPage` of the render in which the query
changed, before the reset to 1 has taken effect. -/
theorem query_change_fetches_old_page_first :
    ((run sampleKey Machine.initial [.mount, .pageChange 3, .typed "dune"]).bind
      (fun r => (step sampleKey r.1 .debounceElapsed).map
        (fun r2 => (r.1.app.currentPage, fetchedUrls r2.2, r2.1.app.currentPage)))) =
      some (3, [url "dune" 3, url "dune" 1], 1) ∧
    url "dune" 3 = "https://api.themoviedb.org/3/search/movie?query=dune&page=3" := by
  decide

/-- C3 (evaluated at the failing input): a successful response for the query
`dune` with one result. When `updateSearchCount` resolves the list holds the
result and there is no error; when it rejects, the `catch` block of
`fetchMovies` empties the list and sets the fetch-failure message. -/
theorem report_rejection_clears_results :
    (runSegments (fun _ s => s) 0 AppState.initial
      (fetchMovies sampleKey "dune" 1 (.ok { results := some [dune], total_pages := 12 })
        true)).movieList = [dune] ∧
    (runSegments (fun _ s => s) 0 AppState.initial
      (fetchMovies sampleKey "dune" 1 (.ok { results := some [dune], total_pages := 12 })
        true)).errorMessage = "" ∧
    (runSegments (fun _ s => s) 0 AppState.initial
      (fetchMovies sampleKey "dune" 1 (.ok { results := some [dune], total_pages := 12 })
        false)).movieList = [] ∧
    (runSegments (fun _ s => s) 0 AppState.initial
      (fetchMovies sampleKey "dune" 1 (.ok { results := some [dune], total_pages := 12 })
        false)).errorMessage = "Failed to fetch movies. Please try again." := by
  decide


/-- C4 (as stated, refuted): a detail request that ends in a network error
changes `errorMessage`, and starting a detail request changes `isLoading`,
the flag the catalog fetch uses. -/
theorem detail_fetch_writes_shared_cells :
    (applyActions AppState.initial
      (fetchMovieDetails sampleKey 438631 .networkError).flatten).errorMessage ≠
      AppState.initial.errorMessage ∧
    (applyActions AppState.initial (handleMovieClick sampleKey 438631)).isLoading ≠
      AppState.initial.isLoading := by
  decide

/-- C4 (amended): for every state and every outcome of the detail request,
selecting a record and closing the detail view leave `movieList`,
`currentPage` and `totalPages` unchanged. Closing also leaves `errorMessage`
and `isLoading` unchanged. Selecting sets the shared `isLoading` to true and
the end of the detail request sets it to false; a successful detail request
leaves `errorMessage` unchanged and a failed one sets it to
`Failed to fetch movie details`. -/
theorem detail_view_frame (API_KEY : Option String) (s : AppState) (movieId : Nat)
    (outcome : DetailOutcome) :
    ((applyActions s (handleMovieClick API_KEY movieId)).movieList = s.movieList ∧
      (applyActions s (handleMovieClick API_KEY movieId)).currentPage = s.currentPage ∧
      (applyActions s (handleMovieClick API_KEY movieId)).totalPages = s.totalPages ∧
      (applyActions s (handleMovieClick API_KEY movieId)).errorMessage = s.errorMessage ∧
      (applyActions s (handleMovieClick API_KEY movieId)).isLoading = true) ∧
    ((applyActions s (fetchMovieDetails API_KEY movieId outcome).flatten).movieList =
        s.movieList ∧
      (applyActions s (fetchMovieDetails API_KEY movieId outcome).flatten).currentPage =
        s.currentPage ∧
      (applyActions s (fetchMovieDetails API_KEY movieId outcome).flatten).totalPages =
        s.totalPages ∧
      (applyActions s (fetchMovieDetails API_KEY movieId outcome).flatten).isLoading = false ∧
      ((∃ data, outcome = .ok data) →
        (applyActions s (fetchMovieDetails API_KEY movieId outcome).flatten).errorMessage =
          s.errorMessage) ∧
      ((∀ data, outcome ≠ .ok data) →
        (applyActions s (fetchMovieDetails API_KEY movieId outcome).flatten).errorMessage =
          "Failed to fetch movie details")) ∧
    ((applyActions s handleCloseDetails).movieList = s.movieList ∧
      (applyActions s handleCloseDetails).currentPage = s.currentPage ∧
      (applyActions s handleCloseDetails).totalPages = s.totalPages ∧
      (applyActions s handleCloseDetails).errorMessage = s.errorMessage ∧
      (applyActions s handleCloseDetails).isLoading = s.isLoading) := by
  refine ⟨?_, ?_, ?_⟩
  · simp [handleMovieClick, fetchMovieDetails_start, applyActions, applyAction]
  · cases outcome <;>
      simp [fetchMovieDetails, fetchMovieDetails_start, fetchMovieDetails_onResponse,
        applyActions, applyAction]
  · simp [handleCloseDetails, applyActions, applyAction]

/-- C5: in every state the component can reach, when a call of `fetchMovies`
ends in a failure, `errorMessage` is one fixed non-empty message and
`movieList` is empty. Without a key the call starts and ends inside the step
that makes it (a step that calls `fetchMovies` is one that clears the error,
line 44), and the message is `API Key is missing`; for a network error or a
non-2xx status the call ends in the step that delivers the response, and the
message is `Failed to fetch movies. Please try again.`. -/
theorem fetchMovies_failure_state (API_KEY : Option String) (m m1 : Machine) (e : Event)
    (acts : List Action) (hm : Reachable API_KEY m)
    (hstep : step API_KEY m e = some (m1, acts)) :
    (keyPresent API_KEY = false → Action.setErrorMessage "" ∈ acts →
      m1.app.errorMessage = "API Key is missing" ∧ m1.app.movieList = []) ∧
    (∀ req outcome, e = .catalogResponse req outcome →
      (outcome = .networkError ∨ ∃ status, outcome = .httpError status) →
      m1.app.errorMessage = "Failed to fetch movies. Please try again." ∧
        m1.app.movieList = []) := by
  constructor
  · intro hkey hin
    refine ⟨?_, (reachable_no_key (Reachable.step hm hstep) hkey).1⟩
    obtain ⟨mh, hacts, hh, rfl, rfl⟩ := step_eq_some hstep
    have hc : Action.setErrorMessage "" ∈
        (commit API_KEY 3 { mh with app := applyActions mh.app hacts }).2 := by
      rcases List.mem_append.mp hin with h | h
      · exact absurd h (handle_no_clear hh)
      · exact h
    exact (commit_error_no_key API_KEY hkey 3 _).1 hc
  · rintro req outcome rfl hfail
    obtain ⟨ha, -⟩ := step_catalogResponse hstep (reachable_settled hm)
    rw [ha]
    obtain ⟨-, -, -, he⟩ := onResponse_cells m.app req.query outcome
    have hl := onResponse_movieList m.app req.query outcome
    rcases hfail with rfl | ⟨status, rfl⟩
    · exact ⟨he, hl⟩
    · exact ⟨he, hl⟩

theorem fetchMovies_failure_state_witness :
    mountedWithoutKey.1.app.errorMessage = "API Key is missing" ∧
    mountedWithoutKey.1.app.movieList = [] :=
  (fetchMovies_failure_state none Machine.initial mountedWithoutKey.1 .mount
    mountedWithoutKey.2 Reachable.initial (by decide)).1 (by decide) (by decide)

/-- C6 (as stated, refuted): without a key the first call `fetchMovies` makes
is `setIsLoading(true)`, and the flag is true after it. -/
theorem fetchMovies_without_key_sets_loading :
    keyPresent none = false ∧
    Action.setIsLoading true ∈ (fetchMovies none "dune" 1 .networkError true).flatten ∧
    (applyActions AppState.initial
      ((fetchMovies none "dune" 1 .networkError true).flatten.take 1)).isLoading = true := by
  decide

/-- C6 (amended): without a key, for every query and page, `fetchMovies` makes
exactly five calls and never suspends: it sets `isLoading` to true, clears the
error, logs, sets the error to `API Key is missing` and sets `isLoading` back
to false. No call of `fetch` is among them, and at the end `errorMessage` is
`API Key is missing` and `isLoading` is false. -/
theorem fetchMovies_without_key (API_KEY : Option String) (hkey : keyPresent API_KEY = false)
    (query : String) (page : Nat) (outcome : CatalogOutcome) (reportResolved : Bool)
    (s : AppState) (during : Nat → AppState → AppState) :
    fetchMovies API_KEY query page outcome reportResolved =
      [[ .setIsLoading true, .setErrorMessage "", .consoleError "TMDB API Key is missing!",
         .setErrorMessage "API Key is missing", .setIsLoading false ]] ∧
    fetchedUrls (fetchMovies API_KEY query page outcome reportResolved).flatten = [] ∧
    (runSegments during 0 s
      (fetchMovies API_KEY query page outcome reportResolved)).errorMessage =
      "API Key is missing" ∧
    (runSegments during 0 s
      (fetchMovies API_KEY query page outcome reportResolved)).isLoading = false := by
  have h : fetchMovies API_KEY query page outcome reportResolved =
      [[ .setIsLoading true, .setErrorMessage "", .consoleError "TMDB API Key is missing!",
         .setErrorMessage "API Key is missing", .setIsLoading false ]] := by
    simp [fetchMovies, fetchMovies_start, fetchMovies_finally, hkey]
  rw [h]
  simp [fetchedUrls, runSegments, applyActions, applyAction]

theorem fetchMovies_without_key_witness :
    fetchMovies none "dune" 1 .networkError true =
      [[ .setIsLoading true, .setErrorMessage "", .consoleError "TMDB API Key is missing!",
         .setErrorMessage "API Key is missing", .setIsLoading false ]] ∧
    fetchedUrls (fetchMovies none "dune" 1 .networkError true).flatten = [] ∧
    (runSegments (fun _ s => s) 0 AppState.initial
      (fetchMovies none "dune" 1 .networkError true)).errorMessage = "API Key is missing" ∧
    (runSegments (fun _ s => s) 0 AppState.initial
      (fetchMovies none "dune" 1 .networkError true)).isLoading = false :=
  fetchMovies_without_key none (by decide) "dune" 1 .networkError true AppState.initial
    (fun _ s => s)

/-- C7: for a successful response handled by `fetchMovies(query, page)`, the
calls of `updateSearchCount` made by the whole call are: exactly one, with the
query and the first result, when the query is non-empty and there is at least
one result; none when the query is empty or the result list is empty or
missing. -/
theorem fetchMovies_report_calls (API_KEY : Option String) (query : String) (page : Nat)
    (data : CatalogData) (reportResolved : Bool) (hkey : keyPresent API_KEY = true) :
    (∀ m rest, query ≠ "" → data.results = some (m :: rest) →
      reportCalls (fetchMovies API_KEY query page (.ok data) reportResolved).flatten =
        [(query, m)]) ∧
    (query = "" ∨ data.results = some [] ∨ data.results = none →
      reportCalls (fetchMovies API_KEY query page (.ok data) reportResolved).flatten = []) := by
  constructor
  · intro m rest hq hr
    have ht : topResult query data = some m := by simp [topResult, truthy, hq, hr]
    cases reportResolved <;>
    simp [fetchMovies, hkey, awaitsReport, ht, fetchMovies_start, fetchMovies_onResponse,
      fetchMovies_onReport, fetchMovies_catch, fetchMovies_finally, reportCalls]
  · intro h
    have ht : topResult query data = none := by
      rcases h with h | h | h <;> simp [topResult, truthy, h]
    simp [fetchMovies, hkey, awaitsReport, ht, fetchMovies_start, fetchMovies_onResponse,
      fetchMovies_onReport, fetchMovies_catch, fetchMovies_finally, reportCalls]

theorem fetchMovies_report_calls_witness :
    reportCalls (fetchMovies sampleKey "dune" 1
      (.ok { results := some [dune, pageTwoMovie], total_pages := 12 }) true).flatten =
      [("dune", dune)] :=
  (fetchMovies_report_calls sampleKey "dune" 1
    { results := some [dune, pageTwoMovie], total_pages := 12 } true (by decide)).1
    dune [pageTwoMovie] (by decide) rfl


theorem hexDigit_not_delimiter (n : Nat) (h : n < 16) :
    hexDigit n ≠ '&' ∧ hexDigit n ≠ '=' ∧ hexDigit n ≠ '?' ∧ hexDigit n ≠ '#' := by
  interval_cases n <;> decide

/-- What `encodeURIComponent` writes holds no delimiter of a query string. -/
theorem encodeChar_no_delimiter (x c : Char) (hc : c ∈ encodeChar x) :
    c ≠ '&' ∧ c ≠ '=' ∧ c ≠ '?' ∧ c ≠ '#' := by
  unfold encodeChar at hc
  split_ifs at hc with hu
  · rw [List.mem_singleton] at hc
    subst hc
    refine ⟨?_, ?_, ?_, ?_⟩ <;> (rintro rfl; exact absurd hu (by decide))
  · rw [List.mem_flatMap] at hc
    obtain ⟨b, hb, hcb⟩ := hc
    have hlt := utf8Bytes_lt x b hb
    simp only [percentByte, List.mem_cons, List.mem_singleton, List.not_mem_nil, or_false] at hcb
    rcases hcb with rfl | rfl | rfl
    · decide
    · exact hexDigit_not_delimiter _ (by omega)
    · exact hexDigit_not_delimiter _ (by omega)

/-- C8: for every query and page, a non-empty query gives the search endpoint
with the query as the value of `query` (written by `encodeURIComponent`, which
reads back to the very query and adds no delimiter) followed by the page; the
empty query gives the discover endpoint with `sort_by=popularity.desc` and the
page. The query `dune` on page 1 gives the search URL with `page=1`, the empty
query the discover URL with `page=1`. -/
theorem url_selects_endpoint (query : String) (page : Nat) :
    (query ≠ "" →
      url query page =
        "https://api.themoviedb.org/3/search/movie?query=" ++ encodeURIComponent query ++
          "&page=" ++ toString page ∧
      decodeComponent (encodeURIComponent query) = some query ∧
      ∀ c ∈ (encodeURIComponent query).data, c ≠ '&' ∧ c ≠ '=' ∧ c ≠ '?' ∧ c ≠ '#') ∧
    (query = "" →
      url query page =
        "https://api.themoviedb.org/3/discover/movie?sort_by=popularity.desc&page=" ++
          toString page) ∧
    url "dune" 1 = "https://api.themoviedb.org/3/search/movie?query=dune&page=1" ∧
    url "" 1 = "https://api.themoviedb.org/3/discover/movie?sort_by=popularity.desc&page=1" := by
  refine ⟨?_, ?_, by decide, by decide⟩
  · intro hq
    refine ⟨?_, decodeComponent_encodeURIComponent query, ?_⟩
    · simp [url, truthy, hq, API_BASE_URL, String.append_assoc]
    · intro c hc
      simp only [encodeURIComponent, List.mem_flatMap] at hc
      obtain ⟨x, -, hx⟩ := hc
      exact encodeChar_no_delimiter x c hx
  · rintro rfl
    simp [url, truthy, API_BASE_URL, String.append_assoc]

/-- C9: for every upstream `total_pages` of a successful response, the
`totalPages` stored by `fetchMovies` is at most 500: it is `total_pages` when
that is at most 500 and 500 otherwise; `total_pages = 12` gives 12. -/
theorem totalPages_clamped (s : AppState) (query : String) (data : CatalogData) :
    (applyActions s (fetchMovies_onResponse query (.ok data))).totalPages ≤ 500 ∧
    (data.total_pages ≤ 500 →
      (applyActions s (fetchMovies_onResponse query (.ok data))).totalPages = data.total_pages) ∧
    (500 < data.total_pages →
      (applyActions s (fetchMovies_onResponse query (.ok data))).totalPages = 500) ∧
    (data.total_pages = 12 →
      (applyActions s (fetchMovies_onResponse query (.ok data))).totalPages = 12) := by
  obtain ⟨-, -, h, -⟩ := onResponse_cells s query (.ok data)
  simp only at h
  rw [h]
  unfold clampTotalPages
  split_ifs <;> omega

/-- C10: for every `isLoading`, `errorMessage`, `movieList` and `totalPages`,
the section shows exactly one of spinner, error message, result list and empty
placeholder: the spinner when loading; otherwise the error message when it is
non-empty; otherwise the result list when it is non-empty; otherwise the
placeholder. A pagination control is among the children only when
`totalPages > 1`. -/
theorem allMoviesSection_precedence (s : AppState) :
    ((allMoviesSection s).filter Element.isAlternative).length = 1 ∧
    (s.isLoading = true → Element.spinner ∈ allMoviesSection s) ∧
    (s.isLoading = false → s.errorMessage ≠ "" →
      Element.errorText s.errorMessage ∈ allMoviesSection s) ∧
    (s.isLoading = false → s.errorMessage = "" → s.movieList ≠ [] →
      Element.movieCards s.movieList ∈ allMoviesSection s) ∧
    (s.isLoading = false → s.errorMessage = "" → s.movieList = [] →
      Element.emptyState ∈ allMoviesSection s) ∧
    (∀ e ∈ allMoviesSection s, e.isPagination = true → 1 < s.totalPages) := by
  unfold allMoviesSection
  refine ⟨?_, ?_, ?_, ?_, ?_, ?_⟩
  · split_ifs <;> simp [Element.isAlternative, List.filter]
  · intro h; simp [h]
  · intro h he; simp [h, truthy, he]
  · intro h he hl
    have : 0 < s.movieList.length := List.length_pos.mpr hl
    simp [h, truthy, he, this]
  · intro h he hl; simp [h, truthy, he, hl]
  · intro e he hp
    split_ifs at he with h1 h2 h3 h4 <;> simp at he
    all_goals first
      | exact h4
      | (rcases he with rfl | rfl <;> simp [Element.isPagination] at hp)

end MovieApp
